import Mathlib

/-!
Shallow embedding of the data-normalization utilities of
`src/FAA_Dashboard_Cleaned.py`: the binary-buffer decoder `decode_bdata`
(lines 31-51) and the recursive normalizer `convert_to_serializable`
(lines 54-74), together with the parts of the Python runtime they rely on
(`base64.b64decode`, `struct.calcsize`, `struct.unpack` on the formats
that can arise, and the numpy / pandas scalar conventions).

Python exceptions are modelled by `Option`: a function returns `none`
exactly when the corresponding Python call raises.
-/

namespace FAADashboard

/-- Python `float` values are modelled by their IEEE-754 bit pattern.
`struct.unpack` with format `d` produces a float from a 64-bit pattern and
with format `f` from a 32-bit pattern; the two constructors record which.
No claim inspects the numeric value of a decoded float, only whether it is
a NaN (which `pd.isna` tests), so the bit pattern is kept opaque. -/
inductive PyFloat : Type
  | ofBits64 (bits : Nat)
  | ofBits32 (bits : Nat)
deriving DecidableEq, Repr

/-- NaN test on an IEEE-754 double pattern: exponent field all ones and
nonzero mantissa. -/
def isNanBits64 (bits : Nat) : Bool :=
  decide ((bits / 2 ^ 52) % 2 ^ 11 = 2 ^ 11 - 1) && decide (bits % 2 ^ 52 ≠ 0)

/-- NaN test on an IEEE-754 single pattern: exponent field all ones and
nonzero mantissa.  Converting a 32-bit NaN to a Python 64-bit float keeps
it a NaN, so `pd.isna` agrees with this test. -/
def isNanBits32 (bits : Nat) : Bool :=
  decide ((bits / 2 ^ 23) % 2 ^ 8 = 2 ^ 8 - 1) && decide (bits % 2 ^ 23 ≠ 0)

/-- Whether a Python float is a NaN, as tested by `pd.isna`. -/
def PyFloat.isNan : PyFloat → Bool
  | PyFloat.ofBits64 bits => isNanBits64 bits
  | PyFloat.ofBits32 bits => isNanBits32 bits

/-- Element of a numeric numpy `ndarray`.  `ndarray.tolist()` converts each
element to the corresponding plain Python scalar, which is how the arrays
reaching `convert_to_serializable` (numeric pandas columns) behave. -/
inductive NpScalar : Type
  | int (n : Int)
  | float (f : PyFloat)
  | bool (b : Bool)
deriving DecidableEq, Repr

mutual
/-- A Python value as seen by `convert_to_serializable` (lines 54-74 of the
source): dicts, lists, numpy arrays, numpy scalar wrappers
(`np.integer`, `np.floating`, `np.bool_`), and the plain scalars
`str`, `int`, `float`, `bool`, `None`. -/
inductive PyVal : Type
  | dict (kvs : PyFields)
  | list (items : PyList)
  | ndarray (xs : List NpScalar)
  | npInt (n : Int)
  | npFloat (f : PyFloat)
  | npBool (b : Bool)
  | str (s : String)
  | int (n : Int)
  | float (f : PyFloat)
  | bool (b : Bool)
  | none
/-- A Python list of `PyVal`s. -/
inductive PyList : Type
  | nil
  | cons (hd : PyVal) (tl : PyList)
/-- The entries of a Python dict, in insertion order.  Python dict keys are
unique and iteration preserves insertion order. -/
inductive PyFields : Type
  | nil
  | cons (k : String) (v : PyVal) (tl : PyFields)
end

/-- Build a `PyList` from a Lean list, preserving order. -/
def PyList.ofList : List PyVal → PyList
  | [] => PyList.nil
  | x :: xs => PyList.cons x (PyList.ofList xs)

/-- Length of a `PyList`. -/
def PyList.length : PyList → Nat
  | PyList.nil => 0
  | PyList.cons _ tl => 1 + tl.length

/-- Key membership test, Python's `k in obj` on a dict. -/
def PyFields.hasKey : PyFields → String → Bool
  | PyFields.nil, _ => false
  | PyFields.cons k _ tl, key => k == key || tl.hasKey key

/-- Subscript access `obj[key]` on a dict: the value of the first (in a
real Python dict, only) entry with the given key. -/
def PyFields.lookup : PyFields → String → Option PyVal
  | PyFields.nil, _ => Option.none
  | PyFields.cons k v tl, key => if k == key then some v else tl.lookup key

/-- Key list of a dict, in order. -/
def PyFields.keys : PyFields → List String
  | PyFields.nil => []
  | PyFields.cons k _ tl => k :: tl.keys

/-! ### base64 decoding (`base64.b64decode`, source line 33)

Modelled on canonical padded base64 over the standard alphabet: the input
is a sequence of 4-character groups, the last of which may end in one or
two `=` padding characters.  Python's `b64decode` agrees with this decoder
on every such input; other inputs are mapped to `none` (a decoding
failure), matching the spec's reading that a malformed payload is a fatal
error. -/

/-- Value of a character of the standard base64 alphabet. -/
def b64CharVal (c : Char) : Option Nat :=
  if 'A' ≤ c ∧ c ≤ 'Z' then some (c.toNat - 65)
  else if 'a' ≤ c ∧ c ≤ 'z' then some (c.toNat - 97 + 26)
  else if '0' ≤ c ∧ c ≤ '9' then some (c.toNat - 48 + 52)
  else if c = '+' then some 62
  else if c = '/' then some 63
  else Option.none

/-- Decode a list of base64 characters, four at a time. -/
def b64decodeChars : List Char → Option (List Nat)
  | [] => some []
  | c1 :: c2 :: c3 :: c4 :: rest =>
    match b64CharVal c1, b64CharVal c2 with
    | some v1, some v2 =>
      if c3 = '=' ∧ c4 = '=' ∧ rest = [] then
        some [v1 * 4 + v2 / 16]
      else if c4 = '=' ∧ rest = [] then
        match b64CharVal c3 with
        | some v3 => some [v1 * 4 + v2 / 16, (v2 % 16) * 16 + v3 / 4]
        | Option.none => Option.none
      else
        match b64CharVal c3, b64CharVal c4, b64decodeChars rest with
        | some v3, some v4, some bs =>
          some ([v1 * 4 + v2 / 16, (v2 % 16) * 16 + v3 / 4, (v3 % 4) * 64 + v4] ++ bs)
        | _, _, _ => Option.none
    | _, _ => Option.none
  | _ => Option.none

/-- Python `base64.b64decode` on a string, returning the raw bytes. -/
def b64decode (s : String) : Option (List Nat) :=
  b64decodeChars s.toList

/-! ### struct formats (`struct.calcsize` / `struct.unpack`, lines 48-50)

The only format characters the script can feed to `struct` are the eight
values of its `dtype_map` (`b B h H i I f d`) plus the fallback string
`f8`.  On x86-64 CPython the native sizes of those eight characters equal
their standard sizes (1, 1, 2, 2, 4, 4, 4, 8), so `calcsize(fmt)` without
a byte-order mark and `calcsize('<' + fmt * count)` are consistent. -/

/-- Byte width of a supported `struct` format character; `none` for a
character `struct` would reject here. -/
def fmtCharSize (c : Char) : Option Nat :=
  if c = 'b' then some 1
  else if c = 'B' then some 1
  else if c = 'h' then some 2
  else if c = 'H' then some 2
  else if c = 'i' then some 4
  else if c = 'I' then some 4
  else if c = 'f' then some 4
  else if c = 'd' then some 8
  else Option.none

mutual
/-- Size of a `struct` format string: format characters, each optionally
preceded by a decimal repeat count.  A trailing repeat count with no
following format character is an error (`struct.error: repeat count given
without format specifier`) — this is what `calcsize('f8')` hits, since in
`f8` the `8` is parsed as a repeat count, not as part of a type name. -/
def calcsizeChars : List Char → Option Nat
  | [] => some 0
  | c :: rest =>
    if c.isDigit then calcsizeCount (c.toNat - 48) rest
    else
      match fmtCharSize c, calcsizeChars rest with
      | some s, some t => some (s + t)
      | _, _ => Option.none
/-- Continue parsing after a digit: accumulate the repeat count, then
require a format character. -/
def calcsizeCount (n : Nat) : List Char → Option Nat
  | [] => Option.none
  | c :: rest =>
    if c.isDigit then calcsizeCount (10 * n + (c.toNat - 48)) rest
    else
      match fmtCharSize c, calcsizeChars rest with
      | some s, some t => some (n * s + t)
      | _, _ => Option.none
end

/-- Python `struct.calcsize` on the format strings this script can build. -/
def struct_calcsize (fmt : String) : Option Nat :=
  calcsizeChars fmt.toList

/-- Little-endian value of a byte sequence (first byte least significant). -/
def leValue : List Nat → Nat
  | [] => 0
  | b :: bs => b + 256 * leValue bs

/-- Two's-complement reading of a `w`-byte little-endian value. -/
def toSigned (w : Nat) (v : Nat) : Int :=
  if v < 2 ^ (8 * w - 1) then (v : Int) else (v : Int) - 2 ^ (8 * w)

/-- Unpack one element from a chunk of bytes according to a `struct`
format character (standard byte order, as selected by the `<` mark the
script prepends). -/
def unpackOne (c : Char) (chunk : List Nat) : PyVal :=
  if c = 'b' then PyVal.int (toSigned 1 (leValue chunk))
  else if c = 'B' then PyVal.int (leValue chunk)
  else if c = 'h' then PyVal.int (toSigned 2 (leValue chunk))
  else if c = 'H' then PyVal.int (leValue chunk)
  else if c = 'i' then PyVal.int (toSigned 4 (leValue chunk))
  else if c = 'I' then PyVal.int (leValue chunk)
  else if c = 'f' then PyVal.float (PyFloat.ofBits32 (leValue chunk))
  else if c = 'd' then PyVal.float (PyFloat.ofBits64 (leValue chunk))
  else PyVal.none

/-- Unpack `count` consecutive elements of width `size` from a byte list,
in buffer order. -/
def unpackElems (c : Char) (size : Nat) : Nat → List Nat → List PyVal
  | 0, _ => []
  | count + 1, bs => unpackOne c (bs.take size) :: unpackElems c size count (bs.drop size)

/-- Python `struct.unpack('<' + String.mk [c] * count, raw)` for a single
repeated format character: the buffer length must equal exactly
`count * size`, otherwise `struct.error` is raised (`struct.unpack` never
truncates). -/
def structUnpackLE (c : Char) (count : Nat) (raw : List Nat) : Option (List PyVal) :=
  match fmtCharSize c with
  | some size =>
    if raw.length = count * size then some (unpackElems c size count raw)
    else Option.none
  | Option.none => Option.none

/-- The `dtype_map` of `decode_bdata` (source lines 36-45), in source
order: Plotly dtype tag to `struct` format character. -/
def dtype_map : List (String × String) :=
  [("i1", "b"), ("u1", "B"), ("i2", "h"), ("u2", "H"),
   ("i4", "i"), ("u4", "I"), ("f4", "f"), ("f8", "d")]

/-- Core of `decode_bdata` after base64 decoding (source lines 47-51):
`fmt = dtype_map.get(dtype, 'f8')`, `size = struct.calcsize(fmt)`,
`count = len(raw_bytes) // size`,
`values = struct.unpack('<' + fmt * count, raw_bytes)`.
Note the fallback default is the string `'f8'` — a dtype tag, not a
`struct` format — so for an unrecognized dtype `struct.calcsize('f8')`
raises and the whole call fails, the accompanying comment
`# default to float64` notwithstanding.  When `fmt` comes from the map it
is a single format character. -/
def decode_bdata_bytes (raw : List Nat) (dtype : String) : Option (List PyVal) :=
  let fmt := (dtype_map.lookup dtype).getD "f8"
  match struct_calcsize fmt with
  | Option.none => Option.none
  | some size =>
    let count := raw.length / size
    match fmt.toList with
    | [c] => structUnpackLE c count raw
    | _ => Option.none

/-- The function `decode_bdata(bdata, dtype)` of the source (lines 31-51):
base64-decode the payload, then unpack it according to the dtype tag.
Returns `none` when the Python original raises. -/
def decode_bdata (bdata : String) (dtype : String) : Option (List PyVal) :=
  (b64decode bdata).bind (fun raw => decode_bdata_bytes raw dtype)

/-- Conversion performed by `ndarray.tolist()` on one element of a numeric
array: each element becomes the corresponding plain Python scalar. -/
def NpScalar.toPlain : NpScalar → PyVal
  | NpScalar.int n => PyVal.int n
  | NpScalar.float f => PyVal.float f
  | NpScalar.bool b => PyVal.bool b

mutual
/-- The function `convert_to_serializable` of the source (lines 54-74),
with Python exceptions modelled by `Option`.  A dict containing both the
key `"bdata"` and the key `"dtype"` (regardless of any further keys) is
replaced by the decoded buffer; other dicts and lists are rebuilt with
every value converted; an `ndarray` becomes `tolist()` (not re-walked);
numpy scalar wrappers are unwrapped; `pd.isna` sends a NaN float and
`None` to `None`; everything else is returned unchanged. -/
def convert_to_serializable : PyVal → Option PyVal
  | PyVal.dict kvs =>
    if kvs.hasKey "bdata" && kvs.hasKey "dtype" then
      match kvs.lookup "bdata", kvs.lookup "dtype" with
      | some (PyVal.str b), some (PyVal.str d) =>
        (decode_bdata b d).map (fun vs => PyVal.list (PyList.ofList vs))
      | _, _ => Option.none
    else
      (convFields kvs).map PyVal.dict
  | PyVal.list xs => (convList xs).map PyVal.list
  | PyVal.ndarray xs => some (PyVal.list (PyList.ofList (xs.map NpScalar.toPlain)))
  | PyVal.npInt n => some (PyVal.int n)
  | PyVal.npFloat f => some (PyVal.float f)
  | PyVal.npBool b => some (PyVal.bool b)
  | PyVal.str s => some (PyVal.str s)
  | PyVal.int n => some (PyVal.int n)
  | PyVal.float f => if f.isNan then some PyVal.none else some (PyVal.float f)
  | PyVal.bool b => some (PyVal.bool b)
  | PyVal.none => some PyVal.none
/-- Elementwise conversion of a list (source line 62). -/
def convList : PyList → Option PyList
  | PyList.nil => some PyList.nil
  | PyList.cons x xs =>
    match convert_to_serializable x, convList xs with
    | some y, some ys => some (PyList.cons y ys)
    | _, _ => Option.none
/-- Valuewise conversion of a dict's entries (source line 60). -/
def convFields : PyFields → Option PyFields
  | PyFields.nil => some PyFields.nil
  | PyFields.cons k v tl =>
    match convert_to_serializable v, convFields tl with
    | some w, some tl' => some (PyFields.cons k w tl')
    | _, _ => Option.none
end

/-! ### Predicates for the structural claims -/

/-- Whether a value is a plain, serializer-ready scalar (no numpy wrapper,
no array, no container). -/
def isPlainScalar : PyVal → Bool
  | PyVal.str _ => true
  | PyVal.int _ => true
  | PyVal.float _ => true
  | PyVal.bool _ => true
  | PyVal.none => true
  | _ => false

mutual
/-- Whether a value is built exclusively from the interchange-serializable
types: dict, list, string, integer, float, boolean, null — no numpy
array, no numpy scalar wrapper. -/
def isJson : PyVal → Bool
  | PyVal.dict kvs => isJsonFields kvs
  | PyVal.list xs => isJsonList xs
  | PyVal.ndarray _ => false
  | PyVal.npInt _ => false
  | PyVal.npFloat _ => false
  | PyVal.npBool _ => false
  | PyVal.str _ => true
  | PyVal.int _ => true
  | PyVal.float _ => true
  | PyVal.bool _ => true
  | PyVal.none => true
def isJsonList : PyList → Bool
  | PyList.nil => true
  | PyList.cons x xs => isJson x && isJsonList xs
def isJsonFields : PyFields → Bool
  | PyFields.nil => true
  | PyFields.cons _ v tl => isJson v && isJsonFields tl
end

mutual
/-- Shape of the values `convert_to_serializable` produces: interchange
types only and no dict carrying both buffer keys (so a second pass takes
no decode branch).  NaN floats are still allowed; `noNan` excludes them. -/
def wnorm : PyVal → Bool
  | PyVal.dict kvs =>
    !(kvs.hasKey "bdata" && kvs.hasKey "dtype") && wnormFields kvs
  | PyVal.list xs => wnormList xs
  | PyVal.ndarray _ => false
  | PyVal.npInt _ => false
  | PyVal.npFloat _ => false
  | PyVal.npBool _ => false
  | PyVal.str _ => true
  | PyVal.int _ => true
  | PyVal.float _ => true
  | PyVal.bool _ => true
  | PyVal.none => true
def wnormList : PyList → Bool
  | PyList.nil => true
  | PyList.cons x xs => wnorm x && wnormList xs
def wnormFields : PyFields → Bool
  | PyFields.nil => true
  | PyFields.cons _ v tl => wnorm v && wnormFields tl
end

mutual
/-- Whether a tree contains no NaN float anywhere (including inside numpy
wrappers and arrays). -/
def noNan : PyVal → Bool
  | PyVal.dict kvs => noNanFields kvs
  | PyVal.list xs => noNanList xs
  | PyVal.ndarray xs =>
    xs.all (fun s => match s with
      | NpScalar.float f => !f.isNan
      | _ => true)
  | PyVal.npFloat f => !f.isNan
  | PyVal.float f => !f.isNan
  | _ => true
def noNanList : PyList → Bool
  | PyList.nil => true
  | PyList.cons x xs => noNan x && noNanList xs
def noNanFields : PyFields → Bool
  | PyFields.nil => true
  | PyFields.cons _ v tl => noNan v && noNanFields tl
end

mutual
/-- Whether a tree contains no dict carrying both the key `"bdata"` and
the key `"dtype"` — i.e. nothing `convert_to_serializable` would treat as
an encoded buffer. -/
def noBuffer : PyVal → Bool
  | PyVal.dict kvs =>
    !(kvs.hasKey "bdata" && kvs.hasKey "dtype") && noBufferFields kvs
  | PyVal.list xs => noBufferList xs
  | _ => true
def noBufferList : PyList → Bool
  | PyList.nil => true
  | PyList.cons x xs => noBuffer x && noBufferList xs
def noBufferFields : PyFields → Bool
  | PyFields.nil => true
  | PyFields.cons _ v tl => noBuffer v && noBufferFields tl
end

mutual
/-- Whether `y` preserves the container structure of `x`: wherever `x` has
a dict, `y` has a dict with the same keys in the same order and
structure-preserving values; wherever `x` has a list, `y` has a list of
the same length with structure-preserving elements; where `x` has a leaf
scalar, `y` is unconstrained (only leaf representations may change). -/
def shapeEq : PyVal → PyVal → Bool
  | PyVal.dict kvs, PyVal.dict kvs' => shapeEqFields kvs kvs'
  | PyVal.dict _, _ => false
  | PyVal.list xs, PyVal.list ys => shapeEqList xs ys
  | PyVal.list _, _ => false
  | _, _ => true
def shapeEqList : PyList → PyList → Bool
  | PyList.nil, PyList.nil => true
  | PyList.cons x xs, PyList.cons y ys => shapeEq x y && shapeEqList xs ys
  | _, _ => false
def shapeEqFields : PyFields → PyFields → Bool
  | PyFields.nil, PyFields.nil => true
  | PyFields.cons k v tl, PyFields.cons k' v' tl' =>
    k == k' && shapeEq v v' && shapeEqFields tl tl'
  | _, _ => false
end

/-! ### Helper lemmas -/

theorem PyList.ofList_length : ∀ l : List PyVal, (PyList.ofList l).length = l.length
  | [] => rfl
  | x :: xs => by simp [PyList.ofList, PyList.length, PyList.ofList_length xs, Nat.add_comm]

theorem unpackElems_length (c : Char) (size : Nat) :
    ∀ (count : Nat) (bs : List Nat), (unpackElems c size count bs).length = count
  | 0, _ => rfl
  | count + 1, bs => by
    simp [unpackElems, unpackElems_length c size count]

theorem fmtCharSize_not_digit (c : Char) (s : Nat) (h : fmtCharSize c = some s) :
    c.isDigit = false := by
  unfold fmtCharSize at h
  split_ifs at h with h1 h2 h3 h4 h5 h6 h7 h8
  · subst h1; decide
  · subst h2; decide
  · subst h3; decide
  · subst h4; decide
  · subst h5; decide
  · subst h6; decide
  · subst h7; decide
  · subst h8; decide

theorem calcsizeChars_single (c : Char) (s : Nat) (h : fmtCharSize c = some s) :
    calcsizeChars [c] = some s := by
  unfold calcsizeChars
  rw [fmtCharSize_not_digit c s h]
  simp [h, calcsizeChars]

theorem lookup_mem_snd {α β : Type} [BEq α] :
    ∀ (l : List (α × β)) (a : α) (b : β), l.lookup a = some b → b ∈ l.map Prod.snd
  | [], _, _, h => by simp [List.lookup] at h
  | (k, v) :: tl, a, b, h => by
    rw [List.lookup] at h
    cases hk : a == k with
    | true => rw [hk] at h; simp at h; simp [h]
    | false =>
      rw [hk] at h
      simpa using Or.inr (lookup_mem_snd tl a b h)

theorem dtype_lookup_fmt (dtype fmt : String) (h : dtype_map.lookup dtype = some fmt) :
    ∃ (c : Char) (s : Nat), fmt.toList = [c] ∧ fmtCharSize c = some s ∧ 0 < s := by
  have hmem := lookup_mem_snd dtype_map dtype fmt h
  simp only [dtype_map, List.map, List.mem_cons, List.mem_singleton] at hmem
  rcases hmem with rfl | rfl | rfl | rfl | rfl | rfl | rfl | rfl | h0
  · exact ⟨'b', 1, rfl, rfl, by decide⟩
  · exact ⟨'B', 1, rfl, rfl, by decide⟩
  · exact ⟨'h', 2, rfl, rfl, by decide⟩
  · exact ⟨'H', 2, rfl, rfl, by decide⟩
  · exact ⟨'i', 4, rfl, rfl, by decide⟩
  · exact ⟨'I', 4, rfl, rfl, by decide⟩
  · exact ⟨'f', 4, rfl, rfl, by decide⟩
  · exact ⟨'d', 8, rfl, rfl, by decide⟩
  · simp at h0

theorem decode_bdata_some (p dtype : String) (raw : List Nat) (hb : b64decode p = some raw) :
    decode_bdata p dtype = decode_bdata_bytes raw dtype := by
  unfold decode_bdata
  rw [hb]
  rfl

/-! ### Claim theorems: the decoder -/

/-- C1 (amended).  For a valid base64 payload and a recognized dtype tag of
element width `w`: when the byte length is an exact multiple of `w`,
`decode_bdata` succeeds and returns `L / w` elements; when it is not,
`struct.unpack` is handed a buffer longer than its format requires and
raises, so `decode_bdata` fails — the trailing bytes are not silently
dropped. -/
theorem C1_decode_length (p dtype fmtc : String) (raw : List Nat) (w : Nat)
    (hb : b64decode p = some raw)
    (hd : dtype_map.lookup dtype = some fmtc)
    (hw : struct_calcsize fmtc = some w) :
    (raw.length % w = 0 →
      ∃ vs, decode_bdata p dtype = some vs ∧ vs.length = raw.length / w) ∧
    (raw.length % w ≠ 0 → decode_bdata p dtype = Option.none) := by
  obtain ⟨c, s, hfmt, hcs, hpos⟩ := dtype_lookup_fmt dtype fmtc hd
  have hsz : struct_calcsize fmtc = some s := by
    unfold struct_calcsize
    rw [hfmt]
    exact calcsizeChars_single c s hcs
  have hws : w = s := by
    rw [hw] at hsz
    exact (Option.some.injEq w s).mp hsz
  subst hws
  have hcore : decode_bdata_bytes raw dtype
      = if raw.length = raw.length / w * w
        then some (unpackElems c w (raw.length / w) raw) else Option.none := by
    unfold decode_bdata_bytes
    rw [hd]
    simp only [Option.getD_some, hw, hfmt]
    unfold structUnpackLE
    simp only [hcs]
  rw [decode_bdata_some p dtype raw hb]
  constructor
  · intro hmod
    have hdvd : w ∣ raw.length := Nat.dvd_of_mod_eq_zero hmod
    have hlen : raw.length = raw.length / w * w := (Nat.div_mul_cancel hdvd).symm
    rw [hcore, if_pos hlen]
    exact ⟨_, rfl, unpackElems_length c w _ raw⟩
  · intro hmod
    rw [hcore, if_neg]
    intro hlen
    exact hmod (Nat.mod_eq_zero_of_dvd
      ⟨raw.length / w, by rw [Nat.mul_comm]; exact hlen⟩)

/-- C1 witness: for the payload `AQACAA==` (four bytes) with tag `i2`,
decoding succeeds with `4 / 2` elements. -/
theorem C1_decode_length_witness :
    b64decode "AQACAA==" = some [1, 0, 2, 0] ∧
    ∃ vs, decode_bdata "AQACAA==" "i2" = some vs ∧ vs.length = 4 / 2 :=
  ⟨rfl, (C1_decode_length "AQACAA==" "i2" "h" [1, 0, 2, 0] 2 rfl rfl rfl).1 rfl⟩

/-- C1 counterexample: the claim as stated says a one-byte payload with tag
`i2` decodes, without error, to `floor(1/2) = 0` elements with the
trailing byte silently dropped; in fact `struct.unpack` is handed a
one-byte buffer for a zero-byte format and raises, so `decode_bdata`
fails. -/
theorem C1_decode_length_counterexample :
    b64decode "AA==" = some [0] ∧ decode_bdata "AA==" "i2" = Option.none :=
  ⟨rfl, rfl⟩

/-- C2 (code bug): for the unrecognized tag `zz` and a valid 4-byte
payload, the claim (and the source's own comment `# default to float64`)
says decoding falls back to 64-bit floats and yields zero elements;
instead the fallback value `'f8'` — a dtype tag, not a `struct` format —
makes `struct.calcsize` raise, and `decode_bdata` fails. -/
theorem C2_unrecognized_tag_error :
    b64decode "AAAAAA==" = some [0, 0, 0, 0] ∧
    dtype_map.lookup "zz" = Option.none ∧
    struct_calcsize "f8" = Option.none ∧
    decode_bdata "AAAAAA==" "zz" = Option.none :=
  ⟨rfl, rfl, rfl, rfl⟩

/-- C4 (amended).  The dtype map recognizes exactly eight tags —
`i1 u1 i2 u2 i4 u4 f4 f8`, the signed/unsigned 8/16/32-bit integers plus
the 32-bit and 64-bit floats — with the listed element widths; for every
tag outside this set the lookup falls back to the literal `'f8'`, which is
not a valid `struct` format, so decoding fails instead of falling back to
a 64-bit-float interpretation. -/
theorem C4_recognized_tags :
    dtype_map.map Prod.fst = ["i1", "u1", "i2", "u2", "i4", "u4", "f4", "f8"] ∧
    ((dtype_map.lookup "i1").bind struct_calcsize = some 1 ∧
     (dtype_map.lookup "u1").bind struct_calcsize = some 1 ∧
     (dtype_map.lookup "i2").bind struct_calcsize = some 2 ∧
     (dtype_map.lookup "u2").bind struct_calcsize = some 2 ∧
     (dtype_map.lookup "i4").bind struct_calcsize = some 4 ∧
     (dtype_map.lookup "u4").bind struct_calcsize = some 4 ∧
     (dtype_map.lookup "f4").bind struct_calcsize = some 4 ∧
     (dtype_map.lookup "f8").bind struct_calcsize = some 8) ∧
    (∀ dtype, dtype_map.lookup dtype = Option.none →
      ∀ raw, decode_bdata_bytes raw dtype = Option.none) := by
  refine ⟨rfl, ⟨rfl, rfl, rfl, rfl, rfl, rfl, rfl, rfl⟩, ?_⟩
  intro dtype h raw
  unfold decode_bdata_bytes
  rw [h]
  rfl

/-- C4 witness: the tag `zz` is outside the map and decoding any raw
buffer under it fails. -/
theorem C4_recognized_tags_witness :
    decode_bdata_bytes [0, 0, 0, 0] "zz" = Option.none :=
  C4_recognized_tags.2.2 "zz" rfl [0, 0, 0, 0]

/-- C4 counterexample: the claim says the recognized set has exactly six
members; it has eight. -/
theorem C4_recognized_tags_counterexample :
    (dtype_map.map Prod.fst).length = 8 ∧ (dtype_map.map Prod.fst).length ≠ 6 :=
  ⟨rfl, by decide⟩

/-- C5: `decode_bdata` unpacks little-endian values of the tagged type in
buffer order, and `convert_to_serializable` replaces the two-key mapping
by the decoded sequence: the payload `01 00 02 00` with tag `i2` becomes
`[1, 2]`; the reversed payload becomes `[2, 1]` (order preserved); bytes
`00 01` become `256` (little-endian); byte `ff` with tag `i1` becomes `-1`
(signed). -/
theorem C5_little_endian_decode :
    convert_to_serializable
        (PyVal.dict (PyFields.cons "bdata" (PyVal.str "AQACAA==")
          (PyFields.cons "dtype" (PyVal.str "i2") PyFields.nil)))
      = some (PyVal.list (PyList.cons (PyVal.int 1)
          (PyList.cons (PyVal.int 2) PyList.nil))) ∧
    decode_bdata "AQACAA==" "i2" = some [PyVal.int 1, PyVal.int 2] ∧
    decode_bdata "AgABAA==" "i2" = some [PyVal.int 2, PyVal.int 1] ∧
    decode_bdata "AAE=" "i2" = some [PyVal.int 256] ∧
    decode_bdata "/w==" "i1" = some [PyVal.int (-1)] :=
  ⟨rfl, rfl, rfl, rfl, rfl⟩

/-- C9 (code bug): the empty payload decodes to the empty sequence for
each of the eight recognized tags, but for an unrecognized tag the call
still fails — `struct.calcsize('f8')` raises before the (empty) buffer is
ever consulted — rather than returning the empty sequence for every tag
as claimed. -/
theorem C9_empty_payload :
    decode_bdata "" "i1" = some [] ∧ decode_bdata "" "u1" = some [] ∧
    decode_bdata "" "i2" = some [] ∧ decode_bdata "" "u2" = some [] ∧
    decode_bdata "" "i4" = some [] ∧ decode_bdata "" "u4" = some [] ∧
    decode_bdata "" "f4" = some [] ∧ decode_bdata "" "f8" = some [] ∧
    decode_bdata "" "zz" = Option.none :=
  ⟨rfl, rfl, rfl, rfl, rfl, rfl, rfl, rfl, rfl⟩

/-! ### Helper lemmas for the normalizer claims -/

theorem hasKey_of_lookup : ∀ (kvs : PyFields) (key : String) (v : PyVal),
    kvs.lookup key = some v → kvs.hasKey key = true
  | PyFields.nil, key, v, h => by simp [PyFields.lookup] at h
  | PyFields.cons k w tl, key, v, h => by
    simp only [PyFields.lookup] at h
    by_cases hk : (k == key) = true
    · simp [PyFields.hasKey, hk]
    · rw [if_neg hk] at h
      simp [PyFields.hasKey, hk, hasKey_of_lookup tl key v h]

theorem convFields_hasKey : ∀ (kvs kvs' : PyFields), convFields kvs = some kvs' →
    ∀ key, kvs'.hasKey key = kvs.hasKey key
  | PyFields.nil, kvs', h, key => by
    simp only [convFields, Option.some.injEq] at h
    subst h
    rfl
  | PyFields.cons k v tl, kvs', h, key => by
    simp only [convFields] at h
    split at h
    · rename_i w tl' hv htl
      simp only [Option.some.injEq] at h
      subst h
      simp [PyFields.hasKey, convFields_hasKey tl tl' htl key]
    · exact absurd h (by simp)

theorem wnorm_unpackOne (c : Char) (chunk : List Nat) :
    wnorm (unpackOne c chunk) = true := by
  unfold unpackOne
  split_ifs <;> rfl

theorem wnormList_unpack (c : Char) (size : Nat) :
    ∀ (count : Nat) (bs : List Nat),
      wnormList (PyList.ofList (unpackElems c size count bs)) = true
  | 0, _ => rfl
  | count + 1, bs => by
    simp [unpackElems, PyList.ofList, wnormList, wnorm_unpackOne,
      wnormList_unpack c size count]

theorem decode_bdata_elems (b d : String) (vs : List PyVal)
    (h : decode_bdata b d = some vs) :
    ∃ c size count raw, vs = unpackElems c size count raw := by
  unfold decode_bdata at h
  cases hb : b64decode b with
  | none => rw [hb] at h; exact absurd h (by simp)
  | some raw =>
    rw [hb] at h
    simp only [Option.some_bind] at h
    unfold decode_bdata_bytes at h
    simp only [] at h
    split at h
    · exact absurd h (by simp)
    · split at h
      · rename_i size hsize c hc
        unfold structUnpackLE at h
        split at h
        · rename_i size' hcs
          split at h
          · simp only [Option.some.injEq] at h
            exact ⟨c, size', _, raw, h.symm⟩
          · exact absurd h (by simp)
        · exact absurd h (by simp)
      · exact absurd h (by simp)

theorem wnormList_toPlain : ∀ xs : List NpScalar,
    wnormList (PyList.ofList (xs.map NpScalar.toPlain)) = true
  | [] => rfl
  | s :: tl => by
    cases s <;>
      simp [NpScalar.toPlain, PyList.ofList, wnormList, wnorm, wnormList_toPlain tl]

mutual
theorem convSer_wnorm : ∀ (x y : PyVal),
    convert_to_serializable x = some y → wnorm y = true
  | PyVal.dict kvs, y, h => by
    by_cases hb : (kvs.hasKey "bdata" && kvs.hasKey "dtype") = true
    · rw [convert_to_serializable, if_pos hb] at h
      split at h
      · rename_i b d heq1 heq2
        simp only [Option.map_eq_some'] at h
        obtain ⟨vs, hvs, rfl⟩ := h
        obtain ⟨c, size, count, raw, rfl⟩ := decode_bdata_elems b d vs hvs
        simpa [wnorm] using wnormList_unpack c size count raw
      · exact absurd h (by simp)
    · rw [convert_to_serializable, if_neg hb] at h
      simp only [Option.map_eq_some'] at h
      obtain ⟨kvs', hk, rfl⟩ := h
      have hkeys := convFields_hasKey kvs kvs' hk
      have hcond : (kvs.hasKey "bdata" && kvs.hasKey "dtype") = false :=
        Bool.eq_false_iff.mpr hb
      simp [wnorm, hkeys, hcond, convFields_wnorm kvs kvs' hk]
  | PyVal.list xs, y, h => by
    rw [convert_to_serializable] at h
    simp only [Option.map_eq_some'] at h
    obtain ⟨ys, hy, rfl⟩ := h
    simpa [wnorm] using convList_wnorm xs ys hy
  | PyVal.ndarray xs, y, h => by
    rw [convert_to_serializable] at h
    simp only [Option.some.injEq] at h
    subst h
    simpa [wnorm] using wnormList_toPlain xs
  | PyVal.npInt n, y, h => by
    rw [convert_to_serializable] at h
    simp only [Option.some.injEq] at h
    subst h
    rfl
  | PyVal.npFloat f, y, h => by
    rw [convert_to_serializable] at h
    simp only [Option.some.injEq] at h
    subst h
    rfl
  | PyVal.npBool b, y, h => by
    rw [convert_to_serializable] at h
    simp only [Option.some.injEq] at h
    subst h
    rfl
  | PyVal.str s, y, h => by
    rw [convert_to_serializable] at h
    simp only [Option.some.injEq] at h
    subst h
    rfl
  | PyVal.int n, y, h => by
    rw [convert_to_serializable] at h
    simp only [Option.some.injEq] at h
    subst h
    rfl
  | PyVal.float f, y, h => by
    rw [convert_to_serializable] at h
    split at h <;>
      · simp only [Option.some.injEq] at h
        subst h
        rfl
  | PyVal.bool b, y, h => by
    rw [convert_to_serializable] at h
    simp only [Option.some.injEq] at h
    subst h
    rfl
  | PyVal.none, y, h => by
    rw [convert_to_serializable] at h
    simp only [Option.some.injEq] at h
    subst h
    rfl
theorem convList_wnorm : ∀ (xs ys : PyList),
    convList xs = some ys → wnormList ys = true
  | PyList.nil, ys, h => by
    simp only [convList, Option.some.injEq] at h
    subst h
    rfl
  | PyList.cons x xs, ys, h => by
    simp only [convList] at h
    split at h
    · rename_i y ys' hy hys
      simp only [Option.some.injEq] at h
      subst h
      simp [wnormList, convSer_wnorm x y hy, convList_wnorm xs ys' hys]
    · exact absurd h (by simp)
theorem convFields_wnorm : ∀ (kvs kvs' : PyFields),
    convFields kvs = some kvs' → wnormFields kvs' = true
  | PyFields.nil, kvs', h => by
    simp only [convFields, Option.some.injEq] at h
    subst h
    rfl
  | PyFields.cons k v tl, kvs', h => by
    simp only [convFields] at h
    split at h
    · rename_i w tl' hv htl
      simp only [Option.some.injEq] at h
      subst h
      simp [wnormFields, convSer_wnorm v w hv, convFields_wnorm tl tl' htl]
    · exact absurd h (by simp)
end

theorem bool_not_true {b : Bool} (h : (!b) = true) : b = false := by
  cases b
  · rfl
  · exact absurd h (by simp)

mutual
theorem wnorm_isJson : ∀ x : PyVal, wnorm x = true → isJson x = true
  | PyVal.dict kvs, h => by
    simp only [wnorm, Bool.and_eq_true] at h
    simpa [isJson] using wnormFields_isJson kvs h.2
  | PyVal.list xs, h => by
    simpa [isJson] using wnormList_isJson xs (by simpa [wnorm] using h)
  | PyVal.ndarray xs, h => by simp [wnorm] at h
  | PyVal.npInt n, h => by simp [wnorm] at h
  | PyVal.npFloat f, h => by simp [wnorm] at h
  | PyVal.npBool b, h => by simp [wnorm] at h
  | PyVal.str s, _ => rfl
  | PyVal.int n, _ => rfl
  | PyVal.float f, _ => rfl
  | PyVal.bool b, _ => rfl
  | PyVal.none, _ => rfl
theorem wnormList_isJson : ∀ xs : PyList, wnormList xs = true → isJsonList xs = true
  | PyList.nil, _ => rfl
  | PyList.cons x xs, h => by
    simp only [wnormList, Bool.and_eq_true] at h
    simp [isJsonList, wnorm_isJson x h.1, wnormList_isJson xs h.2]
theorem wnormFields_isJson : ∀ kvs : PyFields,
    wnormFields kvs = true → isJsonFields kvs = true
  | PyFields.nil, _ => rfl
  | PyFields.cons k v tl, h => by
    simp only [wnormFields, Bool.and_eq_true] at h
    simp [isJsonFields, wnorm_isJson v h.1, wnormFields_isJson tl h.2]
end

mutual
theorem wnorm_noBuffer : ∀ x : PyVal, wnorm x = true → noBuffer x = true
  | PyVal.dict kvs, h => by
    simp only [wnorm, Bool.and_eq_true] at h
    simp [noBuffer, h.1, wnormFields_noBuffer kvs h.2]
  | PyVal.list xs, h => by
    simpa [noBuffer] using wnormList_noBuffer xs (by simpa [wnorm] using h)
  | PyVal.ndarray xs, _ => rfl
  | PyVal.npInt n, _ => rfl
  | PyVal.npFloat f, _ => rfl
  | PyVal.npBool b, _ => rfl
  | PyVal.str s, _ => rfl
  | PyVal.int n, _ => rfl
  | PyVal.float f, _ => rfl
  | PyVal.bool b, _ => rfl
  | PyVal.none, _ => rfl
theorem wnormList_noBuffer : ∀ xs : PyList,
    wnormList xs = true → noBufferList xs = true
  | PyList.nil, _ => rfl
  | PyList.cons x xs, h => by
    simp only [wnormList, Bool.and_eq_true] at h
    simp [noBufferList, wnorm_noBuffer x h.1, wnormList_noBuffer xs h.2]
theorem wnormFields_noBuffer : ∀ kvs : PyFields,
    wnormFields kvs = true → noBufferFields kvs = true
  | PyFields.nil, _ => rfl
  | PyFields.cons k v tl, h => by
    simp only [wnormFields, Bool.and_eq_true] at h
    simp [noBufferFields, wnorm_noBuffer v h.1, wnormFields_noBuffer tl h.2]
end

mutual
theorem conv_fixed : ∀ y : PyVal, wnorm y = true → noNan y = true →
    convert_to_serializable y = some y
  | PyVal.dict kvs, hw, hn => by
    simp only [wnorm, Bool.and_eq_true] at hw
    have hcond : (kvs.hasKey "bdata" && kvs.hasKey "dtype") = false :=
      bool_not_true hw.1
    have hf : convFields kvs = some kvs :=
      convFields_fixed kvs hw.2 (by simpa [noNan] using hn)
    simp [convert_to_serializable, hcond, hf]
  | PyVal.list xs, hw, hn => by
    have hl : convList xs = some xs :=
      convList_fixed xs (by simpa [wnorm] using hw) (by simpa [noNan] using hn)
    simp [convert_to_serializable, hl]
  | PyVal.ndarray xs, hw, _ => by simp [wnorm] at hw
  | PyVal.npInt n, hw, _ => by simp [wnorm] at hw
  | PyVal.npFloat f, hw, _ => by simp [wnorm] at hw
  | PyVal.npBool b, hw, _ => by simp [wnorm] at hw
  | PyVal.str s, _, _ => rfl
  | PyVal.int n, _, _ => rfl
  | PyVal.float f, _, hn => by
    have hfn : f.isNan = false := by simpa [noNan] using hn
    simp [convert_to_serializable, hfn]
  | PyVal.bool b, _, _ => rfl
  | PyVal.none, _, _ => rfl
theorem convList_fixed : ∀ xs : PyList, wnormList xs = true → noNanList xs = true →
    convList xs = some xs
  | PyList.nil, _, _ => rfl
  | PyList.cons x xs, hw, hn => by
    simp only [wnormList, Bool.and_eq_true] at hw
    simp only [noNanList, Bool.and_eq_true] at hn
    simp [convList, conv_fixed x hw.1 hn.1, convList_fixed xs hw.2 hn.2]
theorem convFields_fixed : ∀ kvs : PyFields,
    wnormFields kvs = true → noNanFields kvs = true → convFields kvs = some kvs
  | PyFields.nil, _, _ => rfl
  | PyFields.cons k v tl, hw, hn => by
    simp only [wnormFields, Bool.and_eq_true] at hw
    simp only [noNanFields, Bool.and_eq_true] at hn
    simp [convFields, conv_fixed v hw.1 hn.1, convFields_fixed tl hw.2 hn.2]
end

mutual
theorem conv_shape : ∀ x : PyVal, noBuffer x = true →
    ∃ y, convert_to_serializable x = some y ∧ shapeEq x y = true
  | PyVal.dict kvs, h => by
    simp only [noBuffer, Bool.and_eq_true] at h
    have hcond : (kvs.hasKey "bdata" && kvs.hasKey "dtype") = false :=
      bool_not_true h.1
    obtain ⟨kvs', hk, hs⟩ := convFields_shape kvs h.2
    exact ⟨PyVal.dict kvs', by simp [convert_to_serializable, hcond, hk],
      by simpa [shapeEq] using hs⟩
  | PyVal.list xs, h => by
    obtain ⟨ys, hy, hs⟩ := convList_shape xs (by simpa [noBuffer] using h)
    exact ⟨PyVal.list ys, by simp [convert_to_serializable, hy],
      by simpa [shapeEq] using hs⟩
  | PyVal.ndarray xs, _ =>
    ⟨PyVal.list (PyList.ofList (xs.map NpScalar.toPlain)),
      by simp [convert_to_serializable], by simp [shapeEq]⟩
  | PyVal.npInt n, _ => ⟨PyVal.int n, rfl, rfl⟩
  | PyVal.npFloat f, _ => ⟨PyVal.float f, rfl, rfl⟩
  | PyVal.npBool b, _ => ⟨PyVal.bool b, rfl, rfl⟩
  | PyVal.str s, _ => ⟨PyVal.str s, rfl, rfl⟩
  | PyVal.int n, _ => ⟨PyVal.int n, rfl, rfl⟩
  | PyVal.float f, _ => by
    by_cases hf : f.isNan = true
    · exact ⟨PyVal.none, by simp [convert_to_serializable, hf], rfl⟩
    · exact ⟨PyVal.float f,
        by simp [convert_to_serializable, Bool.eq_false_iff.mpr hf], rfl⟩
  | PyVal.bool b, _ => ⟨PyVal.bool b, rfl, rfl⟩
  | PyVal.none, _ => ⟨PyVal.none, rfl, rfl⟩
theorem convList_shape : ∀ xs : PyList, noBufferList xs = true →
    ∃ ys, convList xs = some ys ∧ shapeEqList xs ys = true
  | PyList.nil, _ => ⟨PyList.nil, rfl, rfl⟩
  | PyList.cons x xs, h => by
    simp only [noBufferList, Bool.and_eq_true] at h
    obtain ⟨y, hy, hsy⟩ := conv_shape x h.1
    obtain ⟨ys, hys, hsys⟩ := convList_shape xs h.2
    exact ⟨PyList.cons y ys, by simp [convList, hy, hys],
      by simp [shapeEqList, hsy, hsys]⟩
theorem convFields_shape : ∀ kvs : PyFields, noBufferFields kvs = true →
    ∃ kvs', convFields kvs = some kvs' ∧ shapeEqFields kvs kvs' = true
  | PyFields.nil, _ => ⟨PyFields.nil, rfl, rfl⟩
  | PyFields.cons k v tl, h => by
    simp only [noBufferFields, Bool.and_eq_true] at h
    obtain ⟨y, hy, hsy⟩ := conv_shape v h.1
    obtain ⟨tl', htl, hstl⟩ := convFields_shape tl h.2
    exact ⟨PyFields.cons k y tl', by simp [convFields, hy, htl],
      by simp [shapeEqFields, hsy, hstl]⟩
end

/-! ### Claim theorems: the normalizer -/

/-- C3 (amended).  A mapping is replaced by its decoded sequence exactly
when it contains both the key `"bdata"` and the key `"dtype"` — regardless
of any additional keys; a mapping lacking at least one of the two keys is
walked structurally, each value converted in place. -/
theorem C3_buffer_detection :
    ∀ kvs : PyFields,
      ((kvs.hasKey "bdata" && kvs.hasKey "dtype") = false →
        convert_to_serializable (PyVal.dict kvs) = (convFields kvs).map PyVal.dict) ∧
      (∀ b d, kvs.lookup "bdata" = some (PyVal.str b) →
        kvs.lookup "dtype" = some (PyVal.str d) →
        convert_to_serializable (PyVal.dict kvs)
          = (decode_bdata b d).map (fun vs => PyVal.list (PyList.ofList vs))) := by
  intro kvs
  constructor
  · intro h
    simp [convert_to_serializable, h]
  · intro b d hb hd
    have h1 : kvs.hasKey "bdata" = true := hasKey_of_lookup kvs "bdata" _ hb
    have h2 : kvs.hasKey "dtype" = true := hasKey_of_lookup kvs "dtype" _ hd
    simp [convert_to_serializable, h1, h2, hb, hd]

/-- C3 witness: a three-key mapping holding both buffer keys plus `"x"`
still takes the decode branch. -/
theorem C3_buffer_detection_witness :
    convert_to_serializable
        (PyVal.dict (PyFields.cons "bdata" (PyVal.str "AQACAA==")
          (PyFields.cons "dtype" (PyVal.str "i2")
            (PyFields.cons "x" (PyVal.int 7) PyFields.nil))))
      = (decode_bdata "AQACAA==" "i2").map (fun vs => PyVal.list (PyList.ofList vs)) :=
  (C3_buffer_detection
      (PyFields.cons "bdata" (PyVal.str "AQACAA==")
        (PyFields.cons "dtype" (PyVal.str "i2")
          (PyFields.cons "x" (PyVal.int 7) PyFields.nil)))).2
    "AQACAA==" "i2" rfl rfl

/-- C3 counterexample: the claim says a mapping with both buffer keys plus
an extra key `"x"` is walked structurally, preserving its shape; in fact
it is replaced wholesale by the decoded sequence (a list, not a dict). -/
theorem C3_buffer_detection_counterexample :
    convert_to_serializable
        (PyVal.dict (PyFields.cons "bdata" (PyVal.str "AQACAA==")
          (PyFields.cons "dtype" (PyVal.str "i2")
            (PyFields.cons "x" (PyVal.int 7) PyFields.nil))))
      = some (PyVal.list (PyList.cons (PyVal.int 1)
          (PyList.cons (PyVal.int 2) PyList.nil))) ∧
    shapeEq
        (PyVal.dict (PyFields.cons "bdata" (PyVal.str "AQACAA==")
          (PyFields.cons "dtype" (PyVal.str "i2")
            (PyFields.cons "x" (PyVal.int 7) PyFields.nil))))
        (PyVal.list (PyList.cons (PyVal.int 1)
          (PyList.cons (PyVal.int 2) PyList.nil))) = false :=
  ⟨rfl, rfl⟩

/-- C6.  Whenever `convert_to_serializable` succeeds, its output is built
exclusively from interchange-serializable shapes — dict, list, string,
integer, float, boolean, null, with no numpy array and no numpy scalar
wrapper (`isJson`) — and no encoded buffer remains anywhere in it: no dict
of the output carries both the key `"bdata"` and the key `"dtype"`
(`noBuffer`). -/
theorem C6_output_serializable :
    ∀ x y, convert_to_serializable x = some y →
      isJson y = true ∧ noBuffer y = true :=
  fun x y h =>
    ⟨wnorm_isJson y (convSer_wnorm x y h),
     wnorm_noBuffer y (convSer_wnorm x y h)⟩

/-- C6 witness: a mixed tree of a numpy wrapper, an array, and an encoded
buffer normalizes to a JSON-only, buffer-free tree. -/
theorem C6_output_serializable_witness :
    isJson (PyVal.dict (PyFields.cons "a" (PyVal.int 3)
      (PyFields.cons "b" (PyVal.list (PyList.cons (PyVal.float (PyFloat.ofBits64 0))
        (PyList.cons (PyVal.bool true) PyList.nil)))
      (PyFields.cons "c" (PyVal.list (PyList.cons (PyVal.int 1)
        (PyList.cons (PyVal.int 2) PyList.nil))) PyFields.nil)))) = true ∧
    noBuffer (PyVal.dict (PyFields.cons "a" (PyVal.int 3)
      (PyFields.cons "b" (PyVal.list (PyList.cons (PyVal.float (PyFloat.ofBits64 0))
        (PyList.cons (PyVal.bool true) PyList.nil)))
      (PyFields.cons "c" (PyVal.list (PyList.cons (PyVal.int 1)
        (PyList.cons (PyVal.int 2) PyList.nil))) PyFields.nil)))) = true :=
  C6_output_serializable
    (PyVal.dict (PyFields.cons "a" (PyVal.npInt 3)
      (PyFields.cons "b" (PyVal.ndarray [NpScalar.float (PyFloat.ofBits64 0),
        NpScalar.bool true])
      (PyFields.cons "c" (PyVal.dict (PyFields.cons "bdata" (PyVal.str "AQACAA==")
        (PyFields.cons "dtype" (PyVal.str "i2") PyFields.nil))) PyFields.nil))))
    _ rfl

/-- C7 (amended).  `convert_to_serializable` is idempotent on outputs
containing no NaN float: if it maps `x` to `y` and `y` is NaN-free, a
second application maps `y` to itself.  (A NaN float in the output — e.g.
produced by unwrapping an `np.float64` NaN — is not a fixed point: the
second pass sends it to `None`, which is what the counterexample shows.) -/
theorem C7_idempotent :
    ∀ x y, convert_to_serializable x = some y → noNan y = true →
      convert_to_serializable y = some y :=
  fun x y h hn => conv_fixed y (convSer_wnorm x y h) hn

/-- C7 witness: the normalized form of a small wrapper-laden tree is a
fixed point of a second application. -/
theorem C7_idempotent_witness :
    convert_to_serializable
        (PyVal.dict (PyFields.cons "a" (PyVal.int 3)
          (PyFields.cons "b" PyVal.none PyFields.nil)))
      = some (PyVal.dict (PyFields.cons "a" (PyVal.int 3)
          (PyFields.cons "b" PyVal.none PyFields.nil))) :=
  C7_idempotent
    (PyVal.dict (PyFields.cons "a" (PyVal.npInt 3)
      (PyFields.cons "b" (PyVal.float (PyFloat.ofBits64 9221120237041090560))
        PyFields.nil)))
    _ rfl rfl

/-- C7 counterexample: at `x = np.float64(nan)` the first pass unwraps the
numpy float to a plain NaN float (the `np.floating` branch runs before the
`pd.isna` check), and the second pass sends that NaN to `None`, so
`normalize (normalize x) ≠ normalize x`. -/
theorem C7_idempotent_counterexample :
    convert_to_serializable (PyVal.npFloat (PyFloat.ofBits64 9221120237041090560))
        = some (PyVal.float (PyFloat.ofBits64 9221120237041090560)) ∧
    convert_to_serializable (PyVal.float (PyFloat.ofBits64 9221120237041090560))
        = some PyVal.none ∧
    some PyVal.none ≠ some (PyVal.float (PyFloat.ofBits64 9221120237041090560)) :=
  ⟨rfl, rfl, fun h => by
    injection h with h'
    exact PyVal.noConfusion h'⟩

/-- C8.  On a tree containing no two-key buffer mapping,
`convert_to_serializable` succeeds and preserves the container structure:
every dict keeps its key list (order included) and every list its length
and element order, with only leaves changing representation.  Concretely,
a NaN missing-value marker three levels down a dict-of-list-of-dict
becomes `None` at the same position with all sibling values unchanged. -/
theorem C8_shape_preserved :
    (∀ x, noBuffer x = true →
      ∃ y, convert_to_serializable x = some y ∧ shapeEq x y = true) ∧
    convert_to_serializable
        (PyVal.dict (PyFields.cons "a"
          (PyVal.list (PyList.cons
            (PyVal.dict (PyFields.cons "m"
                (PyVal.float (PyFloat.ofBits64 9221120237041090560))
              (PyFields.cons "s" (PyVal.int 5) PyFields.nil)))
            (PyList.cons (PyVal.int 3) PyList.nil)))
          (PyFields.cons "b" (PyVal.str "t") PyFields.nil)))
      = some (PyVal.dict (PyFields.cons "a"
          (PyVal.list (PyList.cons
            (PyVal.dict (PyFields.cons "m" PyVal.none
              (PyFields.cons "s" (PyVal.int 5) PyFields.nil)))
            (PyList.cons (PyVal.int 3) PyList.nil)))
          (PyFields.cons "b" (PyVal.str "t") PyFields.nil))) :=
  ⟨conv_shape, rfl⟩

/-- C8 witness: the structure-preservation half applied to a concrete
buffer-free tree. -/
theorem C8_shape_preserved_witness :
    ∃ y, convert_to_serializable
        (PyVal.dict (PyFields.cons "k"
          (PyVal.list (PyList.cons (PyVal.npBool true) PyList.nil)) PyFields.nil))
      = some y ∧
    shapeEq
        (PyVal.dict (PyFields.cons "k"
          (PyVal.list (PyList.cons (PyVal.npBool true) PyList.nil)) PyFields.nil))
        y = true :=
  C8_shape_preserved.1
    (PyVal.dict (PyFields.cons "k"
      (PyVal.list (PyList.cons (PyVal.npBool true) PyList.nil)) PyFields.nil))
    rfl

/-- C10.  A numpy array node is replaced by `tolist()`: a plain list of
its elements converted to plain scalars, preserving length and order. -/
theorem C10_ndarray_tolist :
    ∀ xs : List NpScalar,
      convert_to_serializable (PyVal.ndarray xs)
          = some (PyVal.list (PyList.ofList (xs.map NpScalar.toPlain))) ∧
      (PyList.ofList (xs.map NpScalar.toPlain)).length = xs.length ∧
      (xs.map NpScalar.toPlain).all isPlainScalar = true := by
  intro xs
  refine ⟨by simp [convert_to_serializable], ?_, ?_⟩
  · rw [PyList.ofList_length, List.length_map]
  · induction xs with
    | nil => rfl
    | cons s tl ih => cases s <;> simpa [NpScalar.toPlain, isPlainScalar] using ih

end FAADashboard
